import Mathlib

/-!
Shallow embedding of the tex2img client library (src/tex2img/latex_compiler.py and
src/tex2img/tex2img.py) and proofs about its request-building, response-interpretation
and rasterization-wrapping logic.

External collaborators (the HTTP transport, the json codec, the pdf2image rasterizer,
the PIL image encoder, the filesystem and the environment) are modelled as explicit
parameters or association lists; everything the library itself computes is translated
directly from the Python source.
-/

namespace Tex2Img

/-- Model of the local filesystem: an association list from file path to file bytes.
A path names an existing local file exactly when it is bound here, so
os.path.isfile(p) is modelled by (fs.lookup p).isSome and open(p, 'rb').read()
by the bound byte list. -/
abbrev FS := List (String × List Nat)

/-- Python str.startswith(pre): pre is a prefix of the string. -/
def pyStartswith (s pre : String) : Bool :=
  pre.toList.isPrefixOf s.toList

/-- The standard base64 alphabet used by Python base64.b64encode. -/
def b64Alphabet : List Char :=
  "ABCDEFGHIJKLMNOPQRSTUVWXYZabcdefghijklmnopqrstuvwxyz0123456789+/".toList

/-- The base64 digit for a 6-bit value. -/
def b64Char (n : Nat) : Char :=
  b64Alphabet.getD n 'A'

/-- Python base64.b64encode(bs).decode('utf-8'): standard base64 with padding,
three input bytes at a time. -/
def b64encode : List Nat → String
  | [] => ""
  | [b1] =>
    let b1 := b1 % 256
    ⟨[b64Char (b1 / 4), b64Char (b1 % 4 * 16), '=', '=']⟩
  | [b1, b2] =>
    let b1 := b1 % 256
    let b2 := b2 % 256
    ⟨[b64Char (b1 / 4), b64Char (b1 % 4 * 16 + b2 / 16), b64Char (b2 % 16 * 4), '=']⟩
  | b1 :: b2 :: b3 :: rest =>
    let c1 := b1 % 256
    let c2 := b2 % 256
    let c3 := b3 % 256
    (⟨[b64Char (c1 / 4), b64Char (c1 % 4 * 16 + c2 / 16),
       b64Char (c2 % 16 * 4 + c3 / 64), b64Char (c3 % 64)]⟩ : String) ++ b64encode rest

/-- One record of the resources array of the request payload: either the main
document record (main: true plus content), a url record (path plus url), or an
inline content record (path plus content). Each constructor carries exactly the
fields the corresponding Python dict has. -/
inductive Resource where
  | main (content : String) : Resource
  | url (path urlValue : String) : Resource
  | content (path contentValue : String) : Resource
  deriving DecidableEq

/-- Whether a resource record is the one marked main. -/
def Resource.isMain : Resource → Bool
  | .main _ => true
  | _ => false

/-- The request payload assembled by compile: a compiler field and a resources
array. -/
structure Payload where
  compiler : String
  resources : List Resource
  deriving DecidableEq

/-- Classification of one (path, content) pair in the loop body of
LatexCompiler.compile: a content starting with http becomes a url record and the
loop continues; otherwise, if content names an existing local file its bytes are
read and base64-encoded into content, and a content record is appended. -/
def buildResource (fs : FS) (path content : String) : Resource :=
  if pyStartswith content "http" then
    .url path content
  else
    match fs.lookup content with
    | some data => .content path (b64encode data)
    | none => .content path content

/-- The resources list of LatexCompiler.compile: the main document record first,
then one record per supplied (path, content) pair, in order. -/
def buildResources (fs : FS) (latex_code : String)
    (images : List (String × String)) : List Resource :=
  Resource.main latex_code :: images.map fun pc => buildResource fs pc.1 pc.2

/-- The payload dict of LatexCompiler.compile. -/
def buildPayload (fs : FS) (latex_code : String)
    (images : List (String × String)) (compiler : String) : Payload :=
  ⟨compiler, buildResources fs latex_code images⟩

/-- The default value of the compiler parameter of compile and acompile. -/
def defaultCompiler : String := "lualatex"

/-- The observable part of an HTTP response: the status code, the raw body bytes
(response.content, or await response.read() in the asynchronous client), and the
body decoded as a JSON object of string fields (response.json(); the json codec
is an external library, and per the wire protocol the error body is a JSON object
whose logs field is a string). -/
structure HttpResponse where
  status : Nat
  content : List Nat
  jsonView : List (String × String)

/-- The Python exceptions the client can raise. CompilationError is the library
exception type (src/tex2img/exceptions.py) carrying the diagnostic message; the
others are builtins. -/
inductive PyError where
  | compilationError (msg : String)
  | keyError (key : String)
  | valueError (msg : String)
  | notImplementedError (msg : String)
  deriving DecidableEq

/-- LatexCompiler.__init__: resolve the endpoint from the explicit api_url
argument, falling back to the LATEX_COMPILER_API_URL environment variable
(envApiUrl, none when unset; os.getenv with default '' is envApiUrl.getD "").
An empty resolution raises ValueError before anything else happens; otherwise
the resolved endpoint is stored. No network request is involved. -/
def LatexCompiler.init (api_url : String) (envApiUrl : Option String) :
    Except PyError String :=
  let api_url := if api_url = "" then envApiUrl.getD "" else api_url
  if api_url = "" then
    .error (.valueError "API_URL cannot be empty.")
  else
    .ok api_url

/-- LatexCompiler.compile: build the payload, POST it (post is the external HTTP
transport, mapping the serialized payload to the response the service returns),
and interpret the response: status 200 or 201 returns the body verbatim, any
other status extracts the logs field of the JSON-decoded body and raises
CompilationError with it (a missing logs field would raise KeyError instead). -/
def LatexCompiler.compile (fs : FS) (post : Payload → HttpResponse)
    (latex_code : String) (images : List (String × String)) (compiler : String) :
    Except PyError (List Nat) :=
  let payload := buildPayload fs latex_code images compiler
  let response := post payload
  if response.status = 200 ∨ response.status = 201 then
    .ok response.content
  else
    match response.jsonView.lookup "logs" with
    | some error_logs =>
      .error (.compilationError ("Compilation failed with error logs: " ++ error_logs))
    | none => .error (.keyError "logs")

/-- AsyncLatexCompiler.compile: raises NotImplementedError immediately and
unconditionally; it takes no transport or filesystem because its body performs
no I/O of any kind. -/
def AsyncLatexCompiler.compile (_latex_code : String)
    (_images : List (String × String)) (_compiler : String) :
    Except PyError (List Nat) :=
  .error (.notImplementedError "Use acompile instead.")

/-- The loop body of AsyncLatexCompiler.acompile, translated from its own source
text (it reads local files through aiofiles rather than open, but encodes with
the same base64 library). -/
def abuildResource (fs : FS) (path content : String) : Resource :=
  if pyStartswith content "http" then
    .url path content
  else
    match fs.lookup content with
    | some data => .content path (b64encode data)
    | none => .content path content

/-- The resources list assembled by AsyncLatexCompiler.acompile. -/
def abuildResources (fs : FS) (latex_code : String)
    (images : List (String × String)) : List Resource :=
  Resource.main latex_code :: images.map fun pc => abuildResource fs pc.1 pc.2

/-- The payload dict assembled by AsyncLatexCompiler.acompile. -/
def abuildPayload (fs : FS) (latex_code : String)
    (images : List (String × String)) (compiler : String) : Payload :=
  ⟨compiler, abuildResources fs latex_code images⟩

/-- AsyncLatexCompiler.acompile, translated from its own source text: same
payload construction and the same response interpretation as the synchronous
compile, with the POST and body read performed through the asynchronous session
(await disappears in the pure embedding). -/
def AsyncLatexCompiler.acompile (fs : FS) (post : Payload → HttpResponse)
    (latex_code : String) (images : List (String × String)) (compiler : String) :
    Except PyError (List Nat) :=
  let payload := abuildPayload fs latex_code images compiler
  let response := post payload
  if response.status = 200 ∨ response.status = 201 then
    .ok response.content
  else
    match response.jsonView.lookup "logs" with
    | some error_logs =>
      .error (.compilationError ("Compilation failed with error logs: " ++ error_logs))
    | none => .error (.keyError "logs")

/-- Latex2PNG.compile: obtain the PDF bytes from LatexCompiler.compile, hand them
to the external rasterizer (pdf2image.convert_from_bytes, one decoded page object
per PDF page, in page order), and PNG-encode each page (PIL Image.save) into the
result list, preserving order. Failures of the compile step propagate unchanged. -/
def Latex2PNG.compile {α : Type} (fs : FS) (post : Payload → HttpResponse)
    (convert_from_bytes : List Nat → List α) (savePNG : α → List Nat)
    (latex_code : String) (images : List (String × String)) (compiler : String) :
    Except PyError (List (List Nat)) :=
  match LatexCompiler.compile fs post latex_code images compiler with
  | .error e => .error e
  | .ok pdf => .ok ((convert_from_bytes pdf).map savePNG)

/-- AsyncLatex2PNG.compile: raises NotImplementedError immediately and
unconditionally. -/
def AsyncLatex2PNG.compile (_latex_code : String)
    (_images : List (String × String)) (_compiler : String) :
    Except PyError (List (List Nat)) :=
  .error (.notImplementedError "Use acompile instead.")

/-- AsyncLatex2PNG.acompile: obtain the PDF bytes from
AsyncLatexCompiler.acompile, then rasterize and PNG-encode each page exactly as
the synchronous converter does. -/
def AsyncLatex2PNG.acompile {α : Type} (fs : FS) (post : Payload → HttpResponse)
    (convert_from_bytes : List Nat → List α) (savePNG : α → List Nat)
    (latex_code : String) (images : List (String × String)) (compiler : String) :
    Except PyError (List (List Nat)) :=
  match AsyncLatexCompiler.acompile fs post latex_code images compiler with
  | .error e => .error e
  | .ok pdf => .ok ((convert_from_bytes pdf).map savePNG)

/-- Sanity check of the byte model of the PDF magic. -/
def pdfMagic : List Nat := [37, 80, 68, 70]

/-! Helper lemmas shared by the claim theorems. -/

/-- A list that extends a to the right is a prefix of l only if a itself is. -/
theorem isPrefixOf_append_left (a b l : List Char)
    (h : (a ++ b).isPrefixOf l = true) : a.isPrefixOf l = true := by
  induction a generalizing l with
  | nil => simp
  | cons x xs ih =>
    cases l with
    | nil => simp at h
    | cons y ys =>
      simp only [List.cons_append, List.isPrefixOf_cons₂, Bool.and_eq_true] at h ⊢
      exact ⟨h.1, ih ys h.2⟩

/-- A string beginning with one of the two scheme spellings begins with http. -/
theorem pyStartswith_http_of_scheme {c : String}
    (h : pyStartswith c "http://" = true ∨ pyStartswith c "https://" = true) :
    pyStartswith c "http" = true := by
  unfold pyStartswith at h ⊢
  rcases h with h | h
  · have e : "http://".toList = "http".toList ++ "://".toList := by decide
    rw [e] at h
    exact isPrefixOf_append_left _ _ _ h
  · have e : "https://".toList = "http".toList ++ "s://".toList := by decide
    rw [e] at h
    exact isPrefixOf_append_left _ _ _ h

/-- The loop over image pairs never produces the record marked main. -/
theorem buildResource_not_main (fs : FS) (p c : String) :
    (buildResource fs p c).isMain = false := by
  unfold buildResource
  split
  · rfl
  · split <;> rfl

/-- The asynchronous client computes exactly what the synchronous one does. -/
theorem acompile_eq_compile (fs : FS) (post : Payload → HttpResponse)
    (doc : String) (imgs : List (String × String)) (eng : String) :
    AsyncLatexCompiler.acompile fs post doc imgs eng =
      LatexCompiler.compile fs post doc imgs eng := rfl

/-! Claim theorems. -/

/-- C1: on status 200 or 201 compile returns the entire response body verbatim;
on any other status it never returns normally, and when the JSON-decoded body
holds a logs string it raises CompilationError whose message contains that
string. -/
theorem c1_compile_response_handling (fs : FS) (post : Payload → HttpResponse)
    (doc : String) (imgs : List (String × String)) (eng : String) :
    ((post (buildPayload fs doc imgs eng)).status = 200 ∨
        (post (buildPayload fs doc imgs eng)).status = 201 →
      LatexCompiler.compile fs post doc imgs eng =
        .ok (post (buildPayload fs doc imgs eng)).content) ∧
    (¬ ((post (buildPayload fs doc imgs eng)).status = 200 ∨
        (post (buildPayload fs doc imgs eng)).status = 201) →
      (∀ pdf, LatexCompiler.compile fs post doc imgs eng ≠ Except.ok pdf) ∧
      ∀ logs, (post (buildPayload fs doc imgs eng)).jsonView.lookup "logs" = some logs →
        ∃ m, LatexCompiler.compile fs post doc imgs eng =
            .error (.compilationError m) ∧ ∃ a b, m = a ++ logs ++ b) := by
  constructor
  · intro h
    simp only [LatexCompiler.compile]
    rw [if_pos h]
  · intro h
    constructor
    · intro pdf
      simp only [LatexCompiler.compile]
      rw [if_neg h]
      cases (post (buildPayload fs doc imgs eng)).jsonView.lookup "logs" <;> simp
    · intro logs hl
      refine ⟨"Compilation failed with error logs: " ++ logs, ?_,
        "Compilation failed with error logs: ", "", ?_⟩
      · simp only [LatexCompiler.compile]
        rw [if_neg h, hl]
      · simp

/-- C1 witness: a 200 response returns the body, a 500 response with logs boom
raises CompilationError whose message contains boom. -/
theorem c1_compile_response_handling_witness :
    LatexCompiler.compile [] (fun _ => ⟨200, [37, 80, 68, 70], []⟩)
        "doc" [] "lualatex" = .ok [37, 80, 68, 70] ∧
    ∃ m, LatexCompiler.compile [] (fun _ => ⟨500, [], [("logs", "boom")]⟩)
        "doc" [] "lualatex" = .error (.compilationError m) ∧
      ∃ a b, m = a ++ "boom" ++ b :=
  ⟨(c1_compile_response_handling [] (fun _ => ⟨200, [37, 80, 68, 70], []⟩)
      "doc" [] "lualatex").1 (Or.inl rfl),
   ((c1_compile_response_handling [] (fun _ => ⟨500, [], [("logs", "boom")]⟩)
      "doc" [] "lualatex").2 (by decide)).2 "boom" rfl⟩

/-- C2: a content beginning with one of the scheme spellings is always emitted
as a url record holding the content string unchanged (and carrying no content
field, by the shape of the url constructor), independently of the filesystem. -/
theorem c2_url_passthrough (fs fs2 : FS) (p c : String)
    (h : pyStartswith c "http://" = true ∨ pyStartswith c "https://" = true) :
    buildResource fs p c = Resource.url p c ∧
    buildResource fs p c = buildResource fs2 p c := by
  have hp : pyStartswith c "http" = true := pyStartswith_http_of_scheme h
  constructor
  · simp [buildResource, hp]
  · simp [buildResource, hp]

/-- C2 witness at a concrete https content present in neither filesystem. -/
theorem c2_url_passthrough_witness :
    buildResource [] "img.png" "https://x/y.png" = Resource.url "img.png" "https://x/y.png" ∧
    buildResource [] "img.png" "https://x/y.png" =
      buildResource [("https://x/y.png", [1])] "img.png" "https://x/y.png" :=
  c2_url_passthrough [] [("https://x/y.png", [1])] "img.png" "https://x/y.png"
    (Or.inr (by decide))

/-- C3 counterexample: the content httpd.conf does not begin with an HTTP scheme
and names an existing local file, yet the emitted record is a url record, not
the content record with the base64 encoding of the file bytes. -/
theorem c3_counterexample :
    (pyStartswith "httpd.conf" "http://" = false ∧
     pyStartswith "httpd.conf" "https://" = false) ∧
    List.lookup "httpd.conf" ([("httpd.conf", [0])] : FS) = some [0] ∧
    buildResource [("httpd.conf", [0])] "img.dat" "httpd.conf" ≠
      Resource.content "img.dat" (b64encode [0]) := by decide

/-- C3 (amended): for a pair whose content does not begin with the literal
four-character prefix http and names an existing local file, the emitted record
is a content record whose content equals the base64 encoding of the file bytes
and whose path is the supplied path unchanged. -/
theorem c3_local_file_roundtrip (fs : FS) (p c : String) (data : List Nat)
    (h1 : pyStartswith c "http" = false) (h2 : fs.lookup c = some data) :
    buildResource fs p c = Resource.content p (b64encode data) := by
  simp [buildResource, h1, h2]

/-- C3 witness: a file holding bytes 77, 97, 110 is transmitted as TWFu. -/
theorem c3_local_file_roundtrip_witness :
    pyStartswith "img.bin" "http" = false ∧
    List.lookup "img.bin" ([("img.bin", [77, 97, 110])] : FS) = some [77, 97, 110] ∧
    buildResource [("img.bin", [77, 97, 110])] "fig/img.bin" "img.bin" =
      Resource.content "fig/img.bin" (b64encode [77, 97, 110]) :=
  ⟨by decide, by decide,
   c3_local_file_roundtrip [("img.bin", [77, 97, 110])] "fig/img.bin" "img.bin"
     [77, 97, 110] (by decide) (by decide)⟩

/-- C4: the payload carries the engine string as its compiler field, its
resources are the record marked main with the document first and then one
record per supplied pair in order, exactly one record is marked main, and the
default engine is lualatex. -/
theorem c4_payload_assembly (fs : FS) (doc : String)
    (imgs : List (String × String)) (eng : String) :
    (buildPayload fs doc imgs eng).compiler = eng ∧
    (buildPayload fs doc imgs eng).resources =
      Resource.main doc :: imgs.map (fun pc => buildResource fs pc.1 pc.2) ∧
    List.countP (fun r => r.isMain) (buildPayload fs doc imgs eng).resources = 1 ∧
    (buildPayload fs doc imgs defaultCompiler).compiler = "lualatex" := by
  refine ⟨rfl, rfl, ?_, rfl⟩
  have h0 : List.countP (fun r => r.isMain)
      (imgs.map fun pc => buildResource fs pc.1 pc.2) = 0 := by
    rw [List.countP_eq_zero]
    intro a ha
    obtain ⟨pc, hpc, rfl⟩ := List.mem_map.mp ha
    simp [buildResource_not_main]
  show List.countP (fun r => r.isMain)
      (Resource.main doc :: (imgs.map fun pc => buildResource fs pc.1 pc.2)) = 1
  rw [List.countP_cons, h0]
  rfl

/-- C5: when the compile step returns PDF bytes, both converters return one
PNG-encoded buffer per page the rasterizer decodes from those bytes, in page
order; zero decoded pages yield the empty sequence. -/
theorem c5_page_count {α : Type} (fs : FS) (post : Payload → HttpResponse)
    (cfb : List Nat → List α) (sav : α → List Nat)
    (doc : String) (imgs : List (String × String)) (eng : String) (pdf : List Nat)
    (h : LatexCompiler.compile fs post doc imgs eng = .ok pdf) :
    Latex2PNG.compile fs post cfb sav doc imgs eng = .ok ((cfb pdf).map sav) ∧
    AsyncLatex2PNG.acompile fs post cfb sav doc imgs eng = .ok ((cfb pdf).map sav) ∧
    ((cfb pdf).map sav).length = (cfb pdf).length ∧
    (cfb pdf = [] → (cfb pdf).map sav = []) := by
  have ha : AsyncLatexCompiler.acompile fs post doc imgs eng = .ok pdf := by
    rw [acompile_eq_compile]
    exact h
  refine ⟨?_, ?_, List.length_map _ _, ?_⟩
  · simp [Latex2PNG.compile, h]
  · simp [AsyncLatex2PNG.acompile, ha]
  · intro h0
    rw [h0]
    rfl

/-- C5 witness: a rasterizer decoding two pages from the returned byte [37]
yields exactly two buffers from both converters. -/
theorem c5_page_count_witness :
    Latex2PNG.compile [] (fun _ => ⟨200, [37], []⟩) (fun b => [b, b]) (fun x => x)
        "doc" [] "lualatex" = .ok [[37], [37]] ∧
    AsyncLatex2PNG.acompile [] (fun _ => ⟨200, [37], []⟩) (fun b => [b, b]) (fun x => x)
        "doc" [] "lualatex" = .ok [[37], [37]] :=
  ⟨(c5_page_count [] (fun _ => ⟨200, [37], []⟩) (fun b => [b, b]) (fun x => x)
      "doc" [] "lualatex" [37] rfl).1,
   (c5_page_count [] (fun _ => ⟨200, [37], []⟩) (fun b => [b, b]) (fun x => x)
      "doc" [] "lualatex" [37] rfl).2.1⟩

/-- C6: with both the argument and the environment empty, construction fails
with the ValueError before anything else; a non-empty argument wins over the
environment, and an empty argument falls back to a non-empty environment
value. -/
theorem c6_init_endpoint (api_url : String) (env : Option String) :
    ((api_url = "" ∧ (env = none ∨ env = some "")) →
      LatexCompiler.init api_url env = .error (.valueError "API_URL cannot be empty.")) ∧
    (api_url ≠ "" → LatexCompiler.init api_url env = .ok api_url) ∧
    (api_url = "" → ∀ v, env = some v → v ≠ "" →
      LatexCompiler.init api_url env = .ok v) := by
  refine ⟨?_, ?_, ?_⟩
  · rintro ⟨h1, h2 | h2⟩ <;> subst h1 <;> subst h2 <;> rfl
  · intro h
    simp [LatexCompiler.init, h]
  · rintro h1 v rfl h3
    subst h1
    simp [LatexCompiler.init, h3]

/-- C6 witness: the three concrete configuration outcomes. -/
theorem c6_init_endpoint_witness :
    LatexCompiler.init "" none = .error (.valueError "API_URL cannot be empty.") ∧
    LatexCompiler.init "http://e" none = .ok "http://e" ∧
    LatexCompiler.init "" (some "http://env") = .ok "http://env" :=
  ⟨(c6_init_endpoint "" none).1 ⟨rfl, Or.inl rfl⟩,
   (c6_init_endpoint "http://e" none).2.1 (by decide),
   (c6_init_endpoint "" (some "http://env")).2.2 rfl "http://env" rfl (by decide)⟩

/-- C7: the synchronous-shaped compile of both asynchronous classes raises
NotImplementedError unconditionally for every argument combination; the
embedded methods take no transport, filesystem or rasterizer because their
bodies perform no I/O or other side effect before raising. -/
theorem c7_sync_on_async_raises (doc : String)
    (imgs : List (String × String)) (eng : String) :
    AsyncLatexCompiler.compile doc imgs eng =
      .error (.notImplementedError "Use acompile instead.") ∧
    AsyncLatex2PNG.compile doc imgs eng =
      .error (.notImplementedError "Use acompile instead.") :=
  ⟨rfl, rfl⟩

/-- C8: for every filesystem, transport, document, resource list and engine the
asynchronous acompile computes exactly the same result as the synchronous
compile, and it assembles the identical payload and classifies each resource
pair identically. -/
theorem c8_async_refines_sync (fs : FS) (post : Payload → HttpResponse)
    (doc : String) (imgs : List (String × String)) (eng p c : String) :
    AsyncLatexCompiler.acompile fs post doc imgs eng =
      LatexCompiler.compile fs post doc imgs eng ∧
    abuildPayload fs doc imgs eng = buildPayload fs doc imgs eng ∧
    abuildResource fs p c = buildResource fs p c :=
  ⟨acompile_eq_compile fs post doc imgs eng, rfl, rfl⟩

/-- C9 counterexample: the content httpx does not begin with an HTTP scheme and
names no local file, yet the emitted record is a url record rather than the
unchanged content record. -/
theorem c9_counterexample :
    (pyStartswith "httpx" "http://" = false ∧
     pyStartswith "httpx" "https://" = false) ∧
    List.lookup "httpx" ([] : FS) = none ∧
    buildResource [] "p" "httpx" ≠ Resource.content "p" "httpx" := by decide

/-- C9 (amended): for a pair whose content does not begin with the literal
four-character prefix http and names no existing local file — including the
empty string — the emitted record is the content record with the content string
passed through unchanged. -/
theorem c9_inline_passthrough (fs : FS) (p c : String)
    (h1 : pyStartswith c "http" = false) (h2 : fs.lookup c = none) :
    buildResource fs p c = Resource.content p c := by
  simp [buildResource, h1, h2]

/-- C9 witness: the empty content string passes through unchanged. -/
theorem c9_inline_passthrough_witness :
    pyStartswith "" "http" = false ∧
    buildResource [("a.png", [1])] "p" "" = Resource.content "p" "" :=
  ⟨by decide, c9_inline_passthrough [("a.png", [1])] "p" "" (by decide) (by decide)⟩

/-- C10: any content beginning with the literal four-character prefix http is
classified as a url record by both the synchronous and the asynchronous loop,
for every filesystem — so the existing-local-file branch is never reached for
such a content. -/
theorem c10_http_literal_classification (fs : FS) (p c : String)
    (h : pyStartswith c "http" = true) :
    buildResource fs p c = Resource.url p c ∧
    abuildResource fs p c = Resource.url p c := by
  constructor <;> simp [buildResource, abuildResource, h]

/-- C10 witness: httpd.conf names an existing local file and is still emitted
as a url record by both loops. -/
theorem c10_http_literal_classification_witness :
    pyStartswith "httpd.conf" "http" = true ∧
    List.lookup "httpd.conf" ([("httpd.conf", [1])] : FS) = some [1] ∧
    buildResource [("httpd.conf", [1])] "p" "httpd.conf" = Resource.url "p" "httpd.conf" ∧
    abuildResource [("httpd.conf", [1])] "p" "httpd.conf" = Resource.url "p" "httpd.conf" :=
  ⟨by decide, by decide,
   (c10_http_literal_classification [("httpd.conf", [1])] "p" "httpd.conf" (by decide)).1,
   (c10_http_literal_classification [("httpd.conf", [1])] "p" "httpd.conf" (by decide)).2⟩

end Tex2Img
